import Mathlib

/-
Verification development for the cleancopywriter HTML transformation and
templatification core.

This file shallowly embeds the Python sources
  cleancopywriter/html/documents.py
  cleancopywriter/html/templatifiers/clc.py
  cleancopywriter/html/plugin_types.py
  cleancopywriter/html/generic_templates.py
into Lean, and proves properties of the embedding.

Modelling conventions:
- Python AST node objects (from the external cleancopy package) become the
  inductive type PyVal, with one constructor per node class, plus a
  constructor for plain strings appearing in inline content and one for the
  Python None value, so that dynamic isinstance checks are real checks.
- Python exceptions become an Except monad with a PyErr error type.
- Render-tree template instances (templatey dataclasses) become the
  inductive type RT, with one constructor per template class.
- Injected collaborators (the link-target resolver and the plugin manager
  lookups) are function-typed fields of DocCollCfg, as they are injected
  in the source.
-/

/-- Embeds generic_templates.HtmlAttr: one html attribute (key + value). -/
structure HtmlAttr where
  key : String
  value : String
deriving DecidableEq, Repr

/-- One character of Python html.escape with quote enabled. The Python
implementation is a chain of str.replace calls starting with the ampersand;
because the ampersand pass runs first, the chain is equivalent to this
single simultaneous per-character map. -/
def htmlEscapeChar (c : Char) : String :=
  if c = '&' then "&amp;"
  else if c = '<' then "&lt;"
  else if c = '>' then "&gt;"
  else if c = '"' then "&quot;"
  else if c = Char.ofNat 39 then "&#x27;"
  else String.singleton c

/-- Embeds html.escape(value, quote=True) as used throughout clc.py. -/
def html_escape (s : String) : String :=
  String.join (s.toList.map htmlEscapeChar)

/-- Embeds the closed set of cleancopy datatyped values (StrDataType,
IntDataType, DecimalDataType, BoolDataType, NullDataType, MentionDataType,
TagDataType, VariableDataType, ReferenceDataType). The decimal payload is
kept in its string form; the four link-flavoured datatypes keep their raw
payload as a string, which is all clc.py ever reads from them. -/
inductive DataValue where
  | StrDataType (v : String)
  | IntDataType (v : Int)
  | DecimalDataType (v : String)
  | BoolDataType (v : Bool)
  | NullDataType
  | MentionDataType (v : String)
  | TagDataType (v : String)
  | VariableDataType (v : String)
  | ReferenceDataType (v : String)
deriving DecidableEq, Repr

/-- Embeds the DATATYPE_NAMES table of clc.py (type to type-tag string). -/
def DATATYPE_NAMES : DataValue → String
  | DataValue.StrDataType _ => "str"
  | DataValue.IntDataType _ => "int"
  | DataValue.DecimalDataType _ => "dec"
  | DataValue.BoolDataType _ => "bool"
  | DataValue.NullDataType => "null"
  | DataValue.MentionDataType _ => "@"
  | DataValue.TagDataType _ => "#"
  | DataValue.VariableDataType _ => "%"
  | DataValue.ReferenceDataType _ => "&"

/-- The Python .value attribute of a datatyped value, rendered as the string
Python str() would produce for it where clc.py feeds it to html.escape. -/
def DataValue.valueStr : DataValue → String
  | DataValue.StrDataType v => v
  | DataValue.IntDataType v => toString v
  | DataValue.DecimalDataType v => v
  | DataValue.BoolDataType v => if v then "True" else "False"
  | DataValue.NullDataType => "None"
  | DataValue.MentionDataType v => v
  | DataValue.TagDataType v => v
  | DataValue.VariableDataType v => v
  | DataValue.ReferenceDataType v => v

/-- Embeds isinstance(x, MentionDataType | TagDataType | VariableDataType
| ReferenceDataType), the check clc.py uses to route a value through the
injected link-target resolver. -/
def isLinkDataType : DataValue → Bool
  | DataValue.MentionDataType _ => true
  | DataValue.TagDataType _ => true
  | DataValue.VariableDataType _ => true
  | DataValue.ReferenceDataType _ => true
  | _ => false

/-- Embeds cleancopy.spectypes.BlockFormatting (external enum; QUOTE is the
only member clc.py handles, any other member is a fatal error there). -/
inductive BlockFormatting where
  | QUOTE
deriving DecidableEq, Repr

/-- The Python enum member name of a BlockFormatting value. -/
def BlockFormatting.pyName : BlockFormatting → String
  | BlockFormatting.QUOTE => "QUOTE"

/-- Embeds cleancopy.spectypes.InlineFormatting (external enum; these six
members are exactly the ones formatting_factory_inline handles). -/
inductive InlineFormatting where
  | PRE
  | UNDERLINE
  | STRONG
  | EMPHASIS
  | STRIKE
  | QUOTE
deriving DecidableEq, Repr

/-- The Python enum member name of an InlineFormatting value. -/
def InlineFormatting.pyName : InlineFormatting → String
  | InlineFormatting.PRE => "PRE"
  | InlineFormatting.UNDERLINE => "UNDERLINE"
  | InlineFormatting.STRONG => "STRONG"
  | InlineFormatting.EMPHASIS => "EMPHASIS"
  | InlineFormatting.STRIKE => "STRIKE"
  | InlineFormatting.QUOTE => "QUOTE"

/-- Modelled from the spec: the fallback kind is an enum-valued spec field
of the external cleancopy package; the only thing clc.py observes of it is
its lower-cased member name, so the member name is all we keep. -/
structure FallbackKind where
  pyName : String
deriving DecidableEq, Repr

/-- Embeds cleancopy.spectypes.ListType (external enum; clc.py tests
ORDERED and treats everything else as unordered). -/
inductive ListType where
  | ORDERED
  | UNORDERED
deriving DecidableEq, Repr

/-- Embeds cleancopy.ast.BlockNodeInfo (external dataclass). Fields are the
members of BlockMetadataMagic that clc.py reads with getattr, plus the
free-form metadata map (insertion ordered, hence a list of pairs). -/
structure BlockNodeInfo where
  metadata : List (String × DataValue)
  target : Option DataValue
  formatting : Option BlockFormatting
  semantic_modifiers : Option DataValue
  fallback : Option FallbackKind
  embed : Option DataValue
  style_modifiers : Option DataValue
  is_doc_metadata : Option Bool
deriving DecidableEq, Repr

/-- Embeds cleancopy.ast.InlineNodeInfo (external dataclass). Fields are
the members of InlineMetadataMagic that clc.py reads with getattr, plus the
free-form metadata map. -/
structure InlineNodeInfo where
  metadata : List (String × DataValue)
  target : Option DataValue
  formatting : Option InlineFormatting
  semantic_modifiers : Option DataValue
  sugared : Option Bool
  style_modifiers : Option DataValue
deriving DecidableEq, Repr

/-- Modelled from the spec: the member set of the external enum
cleancopy.spectypes.BlockMetadataMagic, the fixed set of recognized
block-level info fields. The enum iteration order is not observable in any
claim because the resulting attribute list is sorted. -/
inductive BlockMetadataMagic where
  | is_doc_metadata
  | semantic_modifiers
  | formatting
  | fallback
  | embed
  | style_modifiers
  | target
deriving DecidableEq, Repr

/-- Iteration order of the BlockMetadataMagic enum members. -/
def BlockMetadataMagic.members : List BlockMetadataMagic :=
  [BlockMetadataMagic.is_doc_metadata, BlockMetadataMagic.semantic_modifiers,
   BlockMetadataMagic.formatting, BlockMetadataMagic.fallback,
   BlockMetadataMagic.embed, BlockMetadataMagic.style_modifiers,
   BlockMetadataMagic.target]

/-- Modelled from the spec: the member set of the external enum
cleancopy.spectypes.InlineMetadataMagic (inline lacks fallback and embed;
it adds sugared, which the normalizer skips). -/
inductive InlineMetadataMagic where
  | formatting
  | sugared
  | semantic_modifiers
  | style_modifiers
  | target
deriving DecidableEq, Repr

/-- Iteration order of the InlineMetadataMagic enum members. -/
def InlineMetadataMagic.members : List InlineMetadataMagic :=
  [InlineMetadataMagic.formatting, InlineMetadataMagic.sugared,
   InlineMetadataMagic.semantic_modifiers, InlineMetadataMagic.style_modifiers,
   InlineMetadataMagic.target]

/-- Comparison by attribute key, the sort key of
retval.sort(key=lambda instance: instance.key) in clc.py. Python compares
strings lexicographically by code point; this is stated on the character
lists, which is equivalent to the String order (String.le_iff_toList_le)
and computable by the kernel. -/
def attrLe (a b : HtmlAttr) : Prop := a.key.toList ≤ b.key.toList

instance : DecidableRel attrLe :=
  fun a b => inferInstanceAs (Decidable (a.key.toList ≤ b.key.toList))

instance : IsTotal HtmlAttr attrLe :=
  ⟨fun a b => le_total a.key.toList b.key.toList⟩

instance : IsTrans HtmlAttr attrLe := ⟨fun _ _ _ h1 h2 => le_trans h1 h2⟩

/-- The shared non-enum value coercion of both spec-metadata transformers in
clc.py: link-flavoured datatypes go through the injected resolver (never
escaped), every other value is html-escaped with quoting enabled. -/
def coerceSpecFieldValue (target_resolver : DataValue → String)
    (field_value : DataValue) : String :=
  if isLinkDataType field_value then target_resolver field_value
  else html_escape field_value.valueStr

/-- Embeds clc._transform_spec_metadatas_block. Walks the BlockMetadataMagic
members in enum order, skipping is_doc_metadata and semantic_modifiers,
emitting one attribute per present field (formatting and fallback as the
lower-cased enum member name; embed renamed to embedding; style_modifiers
renamed to class; other names keep underscores turned into hyphens, which
for the remaining member, target, is the identity), then sorts by key.
The sort is Python list.sort, a stable sort, modelled by the stable
List.insertionSort. -/
def transform_spec_metadatas_block (value : BlockNodeInfo)
    (target_resolver : DataValue → String) : List HtmlAttr :=
  let step := fun (retval : List HtmlAttr) (enum_member : BlockMetadataMagic) =>
    match enum_member with
    | BlockMetadataMagic.is_doc_metadata => retval
    | BlockMetadataMagic.semantic_modifiers => retval
    | BlockMetadataMagic.formatting =>
        match value.formatting with
        | some f => retval ++ [HtmlAttr.mk "formatting" f.pyName.toLower]
        | none => retval
    | BlockMetadataMagic.fallback =>
        match value.fallback with
        | some fb => retval ++ [HtmlAttr.mk "fallback" fb.pyName.toLower]
        | none => retval
    | BlockMetadataMagic.embed =>
        match value.embed with
        | some v =>
            retval ++ [HtmlAttr.mk "embedding" (coerceSpecFieldValue target_resolver v)]
        | none => retval
    | BlockMetadataMagic.style_modifiers =>
        match value.style_modifiers with
        | some v =>
            retval ++ [HtmlAttr.mk "class" (coerceSpecFieldValue target_resolver v)]
        | none => retval
    | BlockMetadataMagic.target =>
        match value.target with
        | some v =>
            retval ++ [HtmlAttr.mk "target" (coerceSpecFieldValue target_resolver v)]
        | none => retval
  List.insertionSort attrLe (BlockMetadataMagic.members.foldl step [])

/-- Embeds clc._transform_spec_metadatas_inline. Walks the
InlineMetadataMagic members in enum order, skipping formatting, sugared and
semantic_modifiers, emitting one attribute per present field
(style_modifiers renamed to class; target keeps its name), then sorts by
key with the same stable sort. -/
def transform_spec_metadatas_inline (value : InlineNodeInfo)
    (target_resolver : DataValue → String) : List HtmlAttr :=
  let step := fun (retval : List HtmlAttr) (enum_member : InlineMetadataMagic) =>
    match enum_member with
    | InlineMetadataMagic.formatting => retval
    | InlineMetadataMagic.sugared => retval
    | InlineMetadataMagic.semantic_modifiers => retval
    | InlineMetadataMagic.style_modifiers =>
        match value.style_modifiers with
        | some v =>
            retval ++ [HtmlAttr.mk "class" (coerceSpecFieldValue target_resolver v)]
        | none => retval
    | InlineMetadataMagic.target =>
        match value.target with
        | some v =>
            retval ++ [HtmlAttr.mk "target" (coerceSpecFieldValue target_resolver v)]
        | none => retval
  List.insertionSort attrLe (InlineMetadataMagic.members.foldl step [])

/-- Embeds clc.NodeContentTagWrapper: one nesting level of tag decoration
around the content (header and body) of a node. -/
structure NodeContentTagWrapper where
  tag : String
  attrs : List HtmlAttr
deriving DecidableEq, Repr

/-- Embeds clc.INLINE_PRE_CLASSNAME. -/
def INLINE_PRE_CLASSNAME : String := "clc-fmt-pre"

/-- Embeds clc.UNDERLINE_TAGNAME. -/
def UNDERLINE_TAGNAME : String := "clc-ul"

/-- Embeds clc.formatting_factory_inline. Total here because the Lean enum
is closed over exactly the handled members; the Python else-branch raising
TypeError is unreachable for actual InlineFormatting members. -/
def formatting_factory_inline : InlineFormatting → NodeContentTagWrapper
  | InlineFormatting.PRE =>
      NodeContentTagWrapper.mk "code" [HtmlAttr.mk "class" INLINE_PRE_CLASSNAME]
  | InlineFormatting.UNDERLINE => NodeContentTagWrapper.mk UNDERLINE_TAGNAME []
  | InlineFormatting.STRONG => NodeContentTagWrapper.mk "strong" []
  | InlineFormatting.EMPHASIS => NodeContentTagWrapper.mk "em" []
  | InlineFormatting.STRIKE => NodeContentTagWrapper.mk "s" []
  | InlineFormatting.QUOTE => NodeContentTagWrapper.mk "q" []

/-- Embeds clc.formatting_factory_block (same totality remark). -/
def formatting_factory_block : BlockFormatting → NodeContentTagWrapper
  | BlockFormatting.QUOTE => NodeContentTagWrapper.mk "blockquote" []

/-- The href computation shared by both wrapper derivations in clc.py: a
literal StrDataType target is html-escaped and used directly, anything else
is resolved through the injected link-target resolver. -/
def hrefForTarget (target_resolver : DataValue → String)
    (target : DataValue) : String :=
  match target with
  | DataValue.StrDataType v => html_escape v
  | t => target_resolver t

/-- Embeds clc._derive_inlinenode_tag_wrappers, keeping the sequential
append structure of the source: semantic-modifier wrapper first, then link
wrapper, then formatting wrapper, each only when present. -/
def derive_inlinenode_tag_wrappers (info : InlineNodeInfo)
    (target_resolver : DataValue → String) : List NodeContentTagWrapper :=
  let wrappers : List NodeContentTagWrapper := []
  let wrappers :=
    match info.semantic_modifiers with
    | some sm => wrappers ++ [NodeContentTagWrapper.mk sm.valueStr []]
    | none => wrappers
  let wrappers :=
    match info.target with
    | some t =>
        wrappers ++ [NodeContentTagWrapper.mk "a"
          [HtmlAttr.mk "href" (hrefForTarget target_resolver t)]]
    | none => wrappers
  let wrappers :=
    match info.formatting with
    | some f => wrappers ++ [formatting_factory_inline f]
    | none => wrappers
  wrappers

/-- Embeds clc._derive_blocknode_tag_wrappers (same structure as the
inline derivation, with block formatting). -/
def derive_blocknode_tag_wrappers (info : BlockNodeInfo)
    (target_resolver : DataValue → String) : List NodeContentTagWrapper :=
  let wrappers : List NodeContentTagWrapper := []
  let wrappers :=
    match info.semantic_modifiers with
    | some sm => wrappers ++ [NodeContentTagWrapper.mk sm.valueStr []]
    | none => wrappers
  let wrappers :=
    match info.target with
    | some t =>
        wrappers ++ [NodeContentTagWrapper.mk "a"
          [HtmlAttr.mk "href" (hrefForTarget target_resolver t)]]
    | none => wrappers
  let wrappers :=
    match info.formatting with
    | some f => wrappers ++ [formatting_factory_block f]
    | none => wrappers
  wrappers

/-- The three kinds of items wrap_node_start and wrap_node_end append in
clc.py: InjectedValue items that bypass the variable escaper, plain
strings, and HtmlAttr template instances. -/
inductive WrapToken where
  | injected (s : String)
  | raw (s : String)
  | attrToken (a : HtmlAttr)
deriving DecidableEq, Repr

/-- Embeds clc.wrap_node_start: walks the wrapper list forward, emitting
for each wrapper an opening angle bracket, the tag, a space plus the
attribute for each attribute, and the closing angle bracket. -/
def wrap_node_start (wrappers : List NodeContentTagWrapper) : List WrapToken :=
  wrappers.foldl
    (fun retval wrapper =>
      let retval := retval ++ [WrapToken.injected "<", WrapToken.raw wrapper.tag]
      let retval := wrapper.attrs.foldl
        (fun acc attr => acc ++ [WrapToken.raw " ", WrapToken.attrToken attr]) retval
      retval ++ [WrapToken.injected ">"])
    []

/-- Embeds clc.wrap_node_end: walks the wrapper list in reverse, emitting
each close tag. -/
def wrap_node_end (wrappers : List NodeContentTagWrapper) : List WrapToken :=
  wrappers.reverse.foldl
    (fun retval wrapper =>
      retval ++ [WrapToken.injected "</", WrapToken.raw wrapper.tag,
        WrapToken.injected ">"])
    []

/-- Renders one wrap token to output text the way the external rendering
engine does: injected values and plain strings verbatim, an HtmlAttr
through its template, which is key then equals sign then the quoted
value. -/
def renderWrapToken : WrapToken → String
  | WrapToken.injected s => s
  | WrapToken.raw s => s
  | WrapToken.attrToken a => a.key ++ "=\"" ++ a.value ++ "\""

/-- Renders a wrap token list to output text. -/
def renderWrapTokens (tokens : List WrapToken) : String :=
  String.join (tokens.map renderWrapToken)

/-- The open token run of a single wrapper (used to state how
wrap_node_start decomposes per wrapper). -/
def wrapperStartTokens (wrapper : NodeContentTagWrapper) : List WrapToken :=
  [WrapToken.injected "<", WrapToken.raw wrapper.tag]
    ++ (wrapper.attrs.map
        (fun attr => [WrapToken.raw " ", WrapToken.attrToken attr])).flatten
    ++ [WrapToken.injected ">"]

/-- The close token run of a single wrapper. -/
def wrapperEndTokens (wrapper : NodeContentTagWrapper) : List WrapToken :=
  [WrapToken.injected "</", WrapToken.raw wrapper.tag, WrapToken.injected ">"]

/-- Follows the wording of the claim about wrapper derivation: the
semantic-role wrapper of an inline info record, when a semantic modifier is
present. -/
def claimedSemanticWrapperInline (info : InlineNodeInfo) : Option NodeContentTagWrapper :=
  info.semantic_modifiers.map (fun sm => NodeContentTagWrapper.mk sm.valueStr [])

/-- Follows the wording of the claim about wrapper derivation: the link
wrapper (tag a with one href attribute), when a target is present. -/
def claimedLinkWrapperInline (info : InlineNodeInfo)
    (target_resolver : DataValue → String) : Option NodeContentTagWrapper :=
  info.target.map (fun t =>
    NodeContentTagWrapper.mk "a" [HtmlAttr.mk "href" (hrefForTarget target_resolver t)])

/-- Follows the wording of the claim about wrapper derivation: the
formatting wrapper, when a formatting kind is present. -/
def claimedFormattingWrapperInline (info : InlineNodeInfo) : Option NodeContentTagWrapper :=
  info.formatting.map formatting_factory_inline

/-- Embeds the closed set of cleancopy AST node classes that
documents._apply_transformers dispatches over, plus the plain strings that
occur in inline content and the Python None value, so that the dynamic
isinstance validations of documents.py are meaningful checks. Field names
and types follow the cleancopy node classes as used by the sources. -/
inductive PyVal where
  | Document (title : PyVal) (info : Option BlockNodeInfo) (root : PyVal)
  | RichtextBlockNode (title : PyVal) (info : Option BlockNodeInfo)
      (depth : Int) (content : List PyVal)
  | EmbeddingBlockNode (title : PyVal) (info : Option BlockNodeInfo)
      (depth : Int) (content : Option String)
  | Paragraph (content : List PyVal)
  | List_ (type_ : ListType) (content : List PyVal)
  | ListItem (index : Option Int) (content : List PyVal)
  | RichtextInlineNode (info : Option InlineNodeInfo) (content : List PyVal)
  | AnnotationNode (content : String)
  | StrContent (s : String)
  | PyNone
deriving Repr

/-- The Python exceptions raised by the embedded sources. -/
inductive PyErr where
  | typeError (msg : String)
  | valueError (msg : String)
  | attributeError (msg : String)
deriving DecidableEq, Repr

/-- Embeds new_title is None or isinstance(new_title, RichtextInlineNode),
the title validation of the transform handlers in documents.py. -/
def isRichtextInlineOrNone : PyVal → Bool
  | PyVal.RichtextInlineNode _ _ => true
  | PyVal.PyNone => true
  | _ => false

/-- Embeds isinstance(x, Paragraph | BlockNode); in cleancopy, BlockNode is
the base class of RichtextBlockNode and EmbeddingBlockNode. -/
def isParagraphOrBlockNode : PyVal → Bool
  | PyVal.Paragraph _ => true
  | PyVal.RichtextBlockNode _ _ _ _ => true
  | PyVal.EmbeddingBlockNode _ _ _ _ => true
  | _ => false

/-- Embeds isinstance(x, RichtextInlineNode | List_ | Annotation), the
paragraph child validation. -/
def isParagraphChild : PyVal → Bool
  | PyVal.RichtextInlineNode _ _ => true
  | PyVal.List_ _ _ => true
  | PyVal.AnnotationNode _ => true
  | _ => false

/-- Embeds isinstance(x, ListItem). -/
def isListItemNode : PyVal → Bool
  | PyVal.ListItem _ _ => true
  | _ => false

/-- Embeds isinstance(x, Paragraph). -/
def isParagraphNode : PyVal → Bool
  | PyVal.Paragraph _ => true
  | _ => false

/-- Embeds isinstance(x, str | RichtextInlineNode), the inline content
validation. -/
def isInlineContent : PyVal → Bool
  | PyVal.StrContent _ => true
  | PyVal.RichtextInlineNode _ _ => true
  | _ => false

/-- Embeds isinstance(x, RichtextBlockNode). -/
def isRichtextBlockNode : PyVal → Bool
  | PyVal.RichtextBlockNode _ _ _ _ => true
  | _ => false

/-- Embeds isinstance(x, ClcDocument). -/
def isDocumentNode : PyVal → Bool
  | PyVal.Document _ _ _ => true
  | _ => false

/-- Embeds cleancopywriter._types.ClcTreeTransformer: a callable taking a
node and the shared context value (which may be None). -/
def ClcTreeTransformer (T : Type) := PyVal → Option T → PyVal

/-- The transformer chain loop shared verbatim by every registered handler
in documents.py: new_node starts as the reconstructed node and each
transformer is applied in registered order. -/
def applyChain {T : Type} (transformers : List (ClcTreeTransformer T))
    (context : Option T) (node : PyVal) : PyVal :=
  transformers.foldl (fun n transformer => transformer n context) node

mutual
/-- Embeds documents._apply_transformers together with all of its
singledispatch handlers (_apply_xform_document, _apply_xform_richtextblocknode,
_apply_xform_embeddingblocknode, _apply_xform_paragraph, _apply_xform_list,
_apply_xform_listitem, _apply_xform_richtextinlinenode,
_apply_xform_annotation). The StrContent and PyNone cases hit the
unregistered base implementation, which returns the value unchanged without
applying any transformer. Each handler transforms the structural children
in order (validating each recursion result exactly where the source does),
reconstructs the node with all non-recursed fields unchanged, and then
applies the transformer chain to the reconstructed node. -/
def applyXformNode {T : Type} (transformers : List (ClcTreeTransformer T))
    (context : Option T) : PyVal → Except PyErr PyVal
  | PyVal.Document title info root =>
      (match title with
        | PyVal.PyNone => pure PyVal.PyNone
        | t =>
            applyXformNode transformers context t >>= fun nt =>
            if isRichtextInlineOrNone nt then pure nt
            else throw (PyErr.typeError "Invalid transformation result!")) >>=
      fun new_title =>
      applyXformNode transformers context root >>= fun new_root =>
      if isRichtextBlockNode new_root then
        pure (applyChain transformers context
          (PyVal.Document new_title info new_root))
      else throw (PyErr.typeError "Invalid transformation result!")
  | PyVal.RichtextBlockNode title info depth content =>
      (match title with
        | PyVal.PyNone => pure PyVal.PyNone
        | t =>
            applyXformNode transformers context t >>= fun nt =>
            if isRichtextInlineOrNone nt then pure nt
            else throw (PyErr.typeError "Invalid transformation result!")) >>=
      fun new_title =>
      applyXformList transformers context content >>= fun new_content =>
      if new_content.all isParagraphOrBlockNode then
        pure (applyChain transformers context
          (PyVal.RichtextBlockNode new_title info depth new_content))
      else throw (PyErr.typeError "Invalid transformation result!")
  | PyVal.EmbeddingBlockNode title info depth content =>
      (match title with
        | PyVal.PyNone => pure PyVal.PyNone
        | t =>
            applyXformNode transformers context t >>= fun nt =>
            if isRichtextInlineOrNone nt then pure nt
            else throw (PyErr.typeError "Invalid transformation result!")) >>=
      fun new_title =>
      pure (applyChain transformers context
        (PyVal.EmbeddingBlockNode new_title info depth content))
  | PyVal.Paragraph content =>
      applyXformList transformers context content >>= fun new_content =>
      if new_content.all isParagraphChild then
        pure (applyChain transformers context (PyVal.Paragraph new_content))
      else throw (PyErr.typeError "Invalid transformation result!")
  | PyVal.List_ type_ content =>
      applyXformList transformers context content >>= fun new_content =>
      if new_content.all isListItemNode then
        pure (applyChain transformers context (PyVal.List_ type_ new_content))
      else throw (PyErr.typeError "Invalid transformation result!")
  | PyVal.ListItem index content =>
      applyXformList transformers context content >>= fun new_content =>
      if new_content.all isParagraphNode then
        pure (applyChain transformers context (PyVal.ListItem index new_content))
      else throw (PyErr.typeError "Invalid transformation result!")
  | PyVal.RichtextInlineNode info content =>
      applyXformList transformers context content >>= fun new_content =>
      if new_content.all isInlineContent then
        pure (applyChain transformers context
          (PyVal.RichtextInlineNode info new_content))
      else throw (PyErr.typeError "Invalid transformation result!")
  | PyVal.AnnotationNode content =>
      pure (applyChain transformers context (PyVal.AnnotationNode content))
  | PyVal.StrContent s => pure (PyVal.StrContent s)
  | PyVal.PyNone => pure PyVal.PyNone

/-- The list comprehension shared by the handlers: transforms every child
in original order, propagating the first exception. -/
def applyXformList {T : Type} (transformers : List (ClcTreeTransformer T))
    (context : Option T) : List PyVal → Except PyErr (List PyVal)
  | [] => pure []
  | x :: xs =>
      applyXformNode transformers context x >>= fun x1 =>
      applyXformList transformers context xs >>= fun rest =>
      pure (x1 :: rest)
end

/-- Embeds documents.apply_transformers: the empty-chain short circuit
returning the input unchanged, otherwise the recursive rewrite followed by
the root validation that the result is still a Document. -/
def apply_transformers {T : Type} (document : PyVal)
    (transformers : List (ClcTreeTransformer T)) (context : Option T) :
    Except PyErr PyVal :=
  if transformers.isEmpty then pure document
  else
    applyXformNode transformers context document >>= fun transformed =>
    if isDocumentNode transformed then pure transformed
    else throw (PyErr.typeError "Invalid transformation result!")

/-- Embeds the render-tree template classes (generic_templates.py and
clc.py) as one closed inductive: HtmlGenericElement, PlaintextTemplate,
ClcMetadataTemplate, ClcRichtextBlocknodeTemplate,
ClcEmbeddingBlocknodeTemplate, ClcEmbeddingFallbackContentTemplate,
ClcEmbeddingPluginContentTemplate, ClcRichtextInlineNodeTemplate,
ClcParagraphTemplate, ClcListTemplate, ClcListItemTemplate,
ClcAnnotationTemplate, in field order of the dataclasses. OpaqueWidget
stands for an arbitrary plugin-supplied template instance of some other
class. -/
inductive RT where
  | HtmlGenericElement (tag : String) (attrs : List HtmlAttr) (body : List RT)
  | PlaintextTemplate (text : String)
  | ClcMetadataTemplate (type_ : String) (key : String) (value : String)
      (extra_attrs : List HtmlAttr)
  | ClcRichtextBlocknodeTemplate (tag_wrappers : List NodeContentTagWrapper)
      (title : List RT) (metadata : List RT) (body : List RT)
      (plugin_attrs : List HtmlAttr) (plugin_widgets : List RT)
      (spectype_attrs : List HtmlAttr)
  | ClcEmbeddingBlocknodeTemplate (tag_wrappers : List NodeContentTagWrapper)
      (title : List RT) (metadata : List RT) (embedding_content : List RT)
      (plugin_attrs : List HtmlAttr) (plugin_widgets : List RT)
      (spectype_attrs : List HtmlAttr)
  | ClcEmbeddingFallbackContentTemplate (body : List RT)
  | ClcEmbeddingPluginContentTemplate (plugin_name : String) (body : List RT)
  | ClcRichtextInlineNodeTemplate (tag_wrappers : List NodeContentTagWrapper)
      (metadata : List RT) (body : List RT) (plugin_attrs : List HtmlAttr)
      (plugin_widgets : List RT) (spectype_attrs : List HtmlAttr)
  | ClcParagraphTemplate (body : List RT)
  | ClcListTemplate (tag : String) (items : List RT)
  | ClcListItemTemplate (index : Option Int) (body : List RT)
  | ClcAnnotationTemplate (text : String)
  | OpaqueWidget (id : Nat)
deriving Repr

/-- Embeds plugin_types.PluginInjection: an optional widget sequence plus
an optional attribute sequence, both defaulting to absent. -/
structure PluginInjection where
  widgets : Option (List RT)
  attrs : Option (List HtmlAttr)

/-- Embeds plugin_types.ClcPlugin: a callable from a node to an optional
injection. -/
def ClcPlugin := PyVal → Option PluginInjection

/-- Embeds plugin_types.EmbeddingsPlugin: a named callable from a node and
the embedding-type string to an optional injection. -/
structure EmbeddingsPlugin where
  plugin_name : String
  call : PyVal → String → Option PluginInjection

/-- The static node classes used as keys for
plugin_manager.get_clc_plugins. -/
inductive NodeType where
  | Document
  | RichtextBlockNode
  | EmbeddingBlockNode
  | Paragraph
  | List_
  | ListItem
  | RichtextInlineNode
  | AnnotationNode
deriving DecidableEq, Repr

/-- The slice of HtmlDocumentCollection that the templatifier reads: the
injected link-target resolver and the two plugin-manager lookups
(plugin_types.PluginManager.get_embeddings_plugins and
plugin_types.PluginManager.get_clc_plugins). -/
structure DocCollCfg where
  target_resolver : DataValue → String
  get_embeddings_plugins : String → List EmbeddingsPlugin
  get_clc_plugins : NodeType → List ClcPlugin

/-- The accumulation loop body of clc._apply_plugins over an explicit
plugin list: every plugin is invoked in registration order and each
non-None injection has its attrs and widgets concatenated onto the
accumulators. -/
def apply_plugins_list (plugins : List ClcPlugin) (node : PyVal) :
    List HtmlAttr × List RT :=
  plugins.foldl
    (fun acc plugin =>
      match plugin node with
      | none => acc
      | some injection =>
          let plugin_attrs :=
            match injection.attrs with
            | some a => acc.1 ++ a
            | none => acc.1
          let plugin_widgets :=
            match injection.widgets with
            | some w => acc.2 ++ w
            | none => acc.2
          (plugin_attrs, plugin_widgets))
    ([], [])

/-- Embeds clc._apply_plugins: additive composition of the node plugins
registered for the static node type. -/
def apply_plugins (doc_coll : DocCollCfg) (node_type : NodeType)
    (node : PyVal) : List HtmlAttr × List RT :=
  apply_plugins_list (doc_coll.get_clc_plugins node_type) node

/-- Embeds generic_templates.heading_factory: converts the zero-indexed
depth to a one-indexed heading level clamped to [1, 6]. The Python branch
coercing non-int depth values is unreachable for an Int depth. -/
def heading_factory (depth : Int) (body : List RT) : RT :=
  let heading_level : Int :=
    if depth < 0 then 1
    else if depth > 5 then 6
    else depth + 1
  RT.HtmlGenericElement ("h" ++ toString heading_level) [] body

/-- Embeds ClcMetadataTemplate.from_ast_node: one metadata entry per
key/value pair of the info record metadata map, in map iteration order.
Null values render as the empty string; link-flavoured values additionally
carry a resolved href extra attribute; every other value is the html-escaped
Python str() of the raw value. -/
def ClcMetadataTemplate_from_ast_node (metadata : List (String × DataValue))
    (target_resolver : DataValue → String) : List RT :=
  metadata.map (fun kv =>
    match kv.2 with
    | DataValue.NullDataType =>
        RT.ClcMetadataTemplate (DATATYPE_NAMES DataValue.NullDataType) kv.1 "" []
    | dv =>
        RT.ClcMetadataTemplate (DATATYPE_NAMES dv) kv.1
          (html_escape dv.valueStr)
          (if isLinkDataType dv then [HtmlAttr.mk "href" (target_resolver dv)]
           else []))

/-- Embeds the embedding-resolution loop of
ClcEmbeddingBlocknodeTemplate.from_ast_node (including its for-else
fallback branch): plugins are tried in order; the first returning a
non-None injection contributes its widgets (empty when absent) wrapped in a
ClcEmbeddingPluginContentTemplate tagged with its plugin name, extends the
threaded plugin_attrs accumulator with its attrs when present, and stops
the loop; if the loop completes without a break, the fallback container
wraps the raw text content (or nothing when content is None). -/
def resolveEmbeddingContent (node : PyVal) (content : Option String)
    (embedding_type : String) :
    List EmbeddingsPlugin → List HtmlAttr → List RT × List HtmlAttr
  | [], plugin_attrs =>
      let plaintext_body :=
        match content with
        | none => []
        | some c => [RT.PlaintextTemplate c]
      ([RT.ClcEmbeddingFallbackContentTemplate plaintext_body], plugin_attrs)
  | embeddings_plugin :: rest, plugin_attrs =>
      match embeddings_plugin.call node embedding_type with
      | some plugin_injection =>
          let injection_body :=
            match plugin_injection.widgets with
            | none => []
            | some w => w
          let embedding_content :=
            [RT.ClcEmbeddingPluginContentTemplate
              embeddings_plugin.plugin_name injection_body]
          let plugin_attrs :=
            match plugin_injection.attrs with
            | none => plugin_attrs
            | some a => plugin_attrs ++ a
          (embedding_content, plugin_attrs)
      | none =>
          resolveEmbeddingContent node content embedding_type rest plugin_attrs

mutual
/-- Embeds ClcRichtextBlocknodeTemplate.from_ast_node: title heading (when
a title exists), dispatched templatification of the content, additive node
plugins, and, when an info record is present, tag wrappers, spec
attributes and metadata entries derived from it. -/
def ClcRichtextBlocknodeTemplate_from_ast_node (doc_coll : DocCollCfg) :
    PyVal → Except PyErr RT
  | n@(PyVal.RichtextBlockNode ntitle info depth content) =>
      (match ntitle with
        | PyVal.PyNone => pure ([] : List RT)
        | t =>
            ClcRichtextInlineNodeTemplate_from_ast_node doc_coll t >>= fun tt =>
            pure [heading_factory depth [tt]]) >>= fun title =>
      templatifyBlockContent doc_coll content >>= fun templatified_content =>
      let pa_pw := apply_plugins doc_coll NodeType.RichtextBlockNode n
      match info with
      | none =>
          pure (RT.ClcRichtextBlocknodeTemplate [] title []
            templatified_content pa_pw.1 pa_pw.2 [])
      | some i =>
          pure (RT.ClcRichtextBlocknodeTemplate
            (derive_blocknode_tag_wrappers i doc_coll.target_resolver)
            title
            (ClcMetadataTemplate_from_ast_node i.metadata doc_coll.target_resolver)
            templatified_content
            pa_pw.1
            pa_pw.2
            (transform_spec_metadatas_block i doc_coll.target_resolver))
  | _ => throw (PyErr.attributeError "not a RichtextBlockNode")

/-- Embeds ClcEmbeddingBlocknodeTemplate.from_ast_node: title heading,
additive node plugins, the fatal invariant checks on the info record and
its embed field, the short-circuiting embedding plugin loop with plaintext
fallback, and the info-derived wrappers, metadata and spec attributes. -/
def ClcEmbeddingBlocknodeTemplate_from_ast_node (doc_coll : DocCollCfg) :
    PyVal → Except PyErr RT
  | n@(PyVal.EmbeddingBlockNode ntitle info depth content) =>
      (match ntitle with
        | PyVal.PyNone => pure ([] : List RT)
        | t =>
            ClcRichtextInlineNodeTemplate_from_ast_node doc_coll t >>= fun tt =>
            pure [heading_factory depth [tt]]) >>= fun title =>
      let pa_pw := apply_plugins doc_coll NodeType.EmbeddingBlockNode n
      match info with
      | none =>
          throw (PyErr.typeError
            "Impossible branch: embedding block node without nodeinfo!")
      | some i =>
          match i.embed with
          | none =>
              throw (PyErr.typeError
                "Impossible branch: embedding block node with null nodeinfo.embed!")
          | some embed_value =>
              let embedding_type := embed_value.valueStr
              let embeddings_plugins :=
                doc_coll.get_embeddings_plugins embedding_type
              let resolved :=
                resolveEmbeddingContent n content embedding_type
                  embeddings_plugins pa_pw.1
              pure (RT.ClcEmbeddingBlocknodeTemplate
                (derive_blocknode_tag_wrappers i doc_coll.target_resolver)
                title
                (ClcMetadataTemplate_from_ast_node i.metadata
                  doc_coll.target_resolver)
                resolved.1
                resolved.2
                pa_pw.2
                (transform_spec_metadatas_block i doc_coll.target_resolver))
  | _ => throw (PyErr.attributeError "not an EmbeddingBlockNode")

/-- Embeds ClcRichtextInlineNodeTemplate.from_ast_node: plain strings
become plaintext templates, nested inline nodes recurse, anything else is
the fatal invalid-child error; then additive plugins, and the info-derived
wrappers, metadata and spec attributes when an info record is present. -/
def ClcRichtextInlineNodeTemplate_from_ast_node (doc_coll : DocCollCfg) :
    PyVal → Except PyErr RT
  | n@(PyVal.RichtextInlineNode info content) =>
      templatifyInlineContent doc_coll content >>= fun contained_content =>
      let pa_pw := apply_plugins doc_coll NodeType.RichtextInlineNode n
      match info with
      | none =>
          pure (RT.ClcRichtextInlineNodeTemplate [] [] contained_content
            pa_pw.1 pa_pw.2 [])
      | some i =>
          pure (RT.ClcRichtextInlineNodeTemplate
            (derive_inlinenode_tag_wrappers i doc_coll.target_resolver)
            (ClcMetadataTemplate_from_ast_node i.metadata doc_coll.target_resolver)
            contained_content
            pa_pw.1
            pa_pw.2
            (transform_spec_metadatas_inline i doc_coll.target_resolver))
  | _ => throw (PyErr.attributeError "not a RichtextInlineNode")

/-- Embeds ClcParagraphTemplate.from_ast_node: dispatches every child on
its runtime class (inline node, list, annotation) and fails loudly on
anything else. -/
def ClcParagraphTemplate_from_ast_node (doc_coll : DocCollCfg) :
    PyVal → Except PyErr RT
  | PyVal.Paragraph content =>
      templatifyParagraphContent doc_coll content >>= fun body =>
      pure (RT.ClcParagraphTemplate body)
  | _ => throw (PyErr.attributeError "not a Paragraph")

/-- Embeds ClcListTemplate.from_ast_node: ol for ordered lists, ul
otherwise, and templatified items. -/
def ClcListTemplate_from_ast_node (doc_coll : DocCollCfg) :
    PyVal → Except PyErr RT
  | PyVal.List_ type_ content =>
      let tag := if type_ = ListType.ORDERED then "ol" else "ul"
      templatifyListItems doc_coll content >>= fun items =>
      pure (RT.ClcListTemplate tag items)
  | _ => throw (PyErr.attributeError "not a List_")

/-- Embeds ClcListItemTemplate.from_ast_node: the optional index is kept
as-is and the body is the templatified paragraph sequence. -/
def ClcListItemTemplate_from_ast_node (doc_coll : DocCollCfg) :
    PyVal → Except PyErr RT
  | PyVal.ListItem index content =>
      templatifyListItemBody doc_coll content >>= fun body =>
      pure (RT.ClcListItemTemplate index body)
  | _ => throw (PyErr.attributeError "not a ListItem")

/-- Embeds ClcAnnotationTemplate.from_ast_node. -/
def ClcAnnotationTemplate_from_ast_node (doc_coll : DocCollCfg) :
    PyVal → Except PyErr RT
  | PyVal.AnnotationNode content => pure (RT.ClcAnnotationTemplate content)
  | _ => throw (PyErr.attributeError "not an Annotation")

/-- The content loop of ClcRichtextBlocknodeTemplate.from_ast_node. -/
def templatifyBlockContent (doc_coll : DocCollCfg) :
    List PyVal → Except PyErr (List RT)
  | [] => pure []
  | x :: xs =>
      (match x with
        | p@(PyVal.Paragraph _) =>
            ClcParagraphTemplate_from_ast_node doc_coll p
        | e@(PyVal.EmbeddingBlockNode _ _ _ _) =>
            ClcEmbeddingBlocknodeTemplate_from_ast_node doc_coll e
        | r@(PyVal.RichtextBlockNode _ _ _ _) =>
            ClcRichtextBlocknodeTemplate_from_ast_node doc_coll r
        | _ =>
            throw (PyErr.typeError "Invalid child of richtext blocknode!")) >>=
      fun x1 =>
      templatifyBlockContent doc_coll xs >>= fun rest =>
      pure (x1 :: rest)

/-- The content loop of ClcParagraphTemplate.from_ast_node. -/
def templatifyParagraphContent (doc_coll : DocCollCfg) :
    List PyVal → Except PyErr (List RT)
  | [] => pure []
  | x :: xs =>
      (match x with
        | i@(PyVal.RichtextInlineNode _ _) =>
            ClcRichtextInlineNodeTemplate_from_ast_node doc_coll i
        | l@(PyVal.List_ _ _) =>
            ClcListTemplate_from_ast_node doc_coll l
        | a@(PyVal.AnnotationNode _) =>
            ClcAnnotationTemplate_from_ast_node doc_coll a
        | _ => throw (PyErr.typeError "Invalid child of paragraph!")) >>=
      fun x1 =>
      templatifyParagraphContent doc_coll xs >>= fun rest =>
      pure (x1 :: rest)

/-- The content loop of ClcRichtextInlineNodeTemplate.from_ast_node. -/
def templatifyInlineContent (doc_coll : DocCollCfg) :
    List PyVal → Except PyErr (List RT)
  | [] => pure []
  | x :: xs =>
      (match x with
        | PyVal.StrContent s => pure (RT.PlaintextTemplate s)
        | i@(PyVal.RichtextInlineNode _ _) =>
            ClcRichtextInlineNodeTemplate_from_ast_node doc_coll i
        | _ =>
            throw (PyErr.typeError "Invalid child of inline richtext node!")) >>=
      fun x1 =>
      templatifyInlineContent doc_coll xs >>= fun rest =>
      pure (x1 :: rest)

/-- The item loop of ClcListTemplate.from_ast_node. -/
def templatifyListItems (doc_coll : DocCollCfg) :
    List PyVal → Except PyErr (List RT)
  | [] => pure []
  | x :: xs =>
      ClcListItemTemplate_from_ast_node doc_coll x >>= fun x1 =>
      templatifyListItems doc_coll xs >>= fun rest =>
      pure (x1 :: rest)

/-- The body loop of ClcListItemTemplate.from_ast_node. -/
def templatifyListItemBody (doc_coll : DocCollCfg) :
    List PyVal → Except PyErr (List RT)
  | [] => pure []
  | x :: xs =>
      ClcParagraphTemplate_from_ast_node doc_coll x >>= fun x1 =>
      templatifyListItemBody doc_coll xs >>= fun rest =>
      pure (x1 :: rest)
end

/-- The post-construction metadata assignment of
ClcRichtextBlocknodeTemplate.from_document (template_instance.metadata = ...).
from_ast_node always returns a ClcRichtextBlocknodeTemplate, so the
fall-through case is unreachable there. -/
def RT.setMetadata : RT → List RT → RT
  | RT.ClcRichtextBlocknodeTemplate tw t _ b pa pw sa, m =>
      RT.ClcRichtextBlocknodeTemplate tw t m b pa pw sa
  | r, _ => r

/-- Embeds ClcRichtextBlocknodeTemplate.from_document: a Document wrapper
has its inner root node templatified first, and only when the Document
itself carries an info record are the metadata entries overwritten with the
ones derived from that record; a bare node goes through from_ast_node
directly. -/
def ClcRichtextBlocknodeTemplate_from_document (doc_coll : DocCollCfg) :
    PyVal → Except PyErr RT
  | PyVal.Document _ info root =>
      ClcRichtextBlocknodeTemplate_from_ast_node doc_coll root >>=
      fun template_instance =>
      match info with
      | some i =>
          pure (RT.setMetadata template_instance
            (ClcMetadataTemplate_from_ast_node i.metadata doc_coll.target_resolver))
      | none => pure template_instance
  | n => ClcRichtextBlocknodeTemplate_from_ast_node doc_coll n

/-- Embeds the two document source variants accepted by
HtmlDocumentCollection.add (docnote_src or clc_src). The docnote summary
tree is an opaque external type parameter DN. -/
inductive HtmlDocumentSrc (DN : Type) where
  | docnote (src : DN)
  | clc (src : PyVal)

/-- Embeds documents.HtmlDocument (DocnoteHtmlDocument / ClcHtmlDocument):
identifier, source object, and the derived intermediate representation. -/
structure HtmlDocument (T DN : Type) where
  id_ : T
  src : HtmlDocumentSrc DN
  intermediate_representation : RT

/-- Embeds the state of documents.HtmlDocumentCollection that add touches:
the templatifier configuration and the insertion-ordered document map
(a Python dict with unique keys, kept as an association list). -/
structure HtmlDocumentCollection (T DN : Type) where
  cfg : DocCollCfg
  _documents : List (T × HtmlDocument T DN)

/-- The dict keys of the stored documents. -/
def HtmlDocumentCollection.keys {T DN : Type}
    (coll : HtmlDocumentCollection T DN) : List T :=
  coll._documents.map Prod.fst

/-- Embeds HtmlDocumentCollection.add. The result pairs the
post-call collection state with the raised exception, if any; every raise
in the Python method happens before the single dict assignment, so on an
exception the state is the input state. The docnote branch builds its
intermediate representation with ModuleSummaryTemplate.from_summary from
templatifiers/docnotes.py, which is passed in here as the function
argument dn_templatify (the claims about add hold for every such
function); the clc branch uses ClcRichtextBlocknodeTemplate.from_document
as in the source. -/
def HtmlDocumentCollection.add {T DN : Type} [DecidableEq T]
    (coll : HtmlDocumentCollection T DN)
    (dn_templatify : DN → Except PyErr RT)
    (id_ : T) (docnote_src : Option DN) (clc_src : Option PyVal) :
    HtmlDocumentCollection T DN × Option PyErr :=
  if id_ ∈ coll.keys then
    (coll, some (PyErr.valueError "Duplicate document ID!"))
  else
    match docnote_src, clc_src with
    | some d, none =>
        match dn_templatify d with
        | Except.error e => (coll, some e)
        | Except.ok ir =>
            ({coll with _documents := coll._documents
                ++ [(id_, HtmlDocument.mk id_ (HtmlDocumentSrc.docnote d) ir)]},
             none)
    | none, some c =>
        match ClcRichtextBlocknodeTemplate_from_document coll.cfg c with
        | Except.error e => (coll, some e)
        | Except.ok templatified =>
            ({coll with _documents := coll._documents
                ++ [(id_, HtmlDocument.mk id_ (HtmlDocumentSrc.clc c) templatified)]},
             none)
    | _, _ =>
        (coll, some (PyErr.typeError
          "Can only specify one document source when adding to a collection!"))

/-- Follows the wording of claim C1 and the spec glossary: an injection
carrying neither widgets nor attributes counts as empty (equivalent to no
injection). -/
def PluginInjection.isEmptyInjection (inj : PluginInjection) : Bool :=
  inj.widgets.isNone && inj.attrs.isNone

/-- Follows the wording of claim C1 (for comparison with the source
behavior): the first plugin returning a NON-EMPTY injection wins; a plugin
whose injection is empty is passed over like one returning None; with no
winner the plaintext fallback container is used. -/
def c1ClaimedEmbeddingContent (node : PyVal) (content : Option String)
    (embedding_type : String) : List EmbeddingsPlugin → List RT
  | [] =>
      [RT.ClcEmbeddingFallbackContentTemplate
        (match content with
         | none => []
         | some c => [RT.PlaintextTemplate c])]
  | p :: rest =>
      match p.call node embedding_type with
      | some inj =>
          if inj.isEmptyInjection then
            c1ClaimedEmbeddingContent node content embedding_type rest
          else
            [RT.ClcEmbeddingPluginContentTemplate p.plugin_name
              (inj.widgets.getD [])]
      | none => c1ClaimedEmbeddingContent node content embedding_type rest

/-- Follows the wording of the amended claim C1: the winning plugin is the
first one (located with find?) whose invocation returns a non-None
injection, empty or not. -/
def amendedEmbeddingWinner (node : PyVal) (embedding_type : String)
    (plugins : List EmbeddingsPlugin) : Option EmbeddingsPlugin :=
  plugins.find? (fun p => (p.call node embedding_type).isSome)

/-- Follows the wording of the amended claim C1: the embedding content is
the winner widgets (empty when absent) wrapped in the plugin-content
container tagged with the winner name; with no winner, the raw text content
(or nothing) wrapped in the plaintext-fallback container. -/
def amendedEmbeddingContent (node : PyVal) (content : Option String)
    (embedding_type : String) (plugins : List EmbeddingsPlugin) : List RT :=
  match amendedEmbeddingWinner node embedding_type plugins with
  | some p =>
      match p.call node embedding_type with
      | some inj =>
          [RT.ClcEmbeddingPluginContentTemplate p.plugin_name (inj.widgets.getD [])]
      | none => []
  | none =>
      [RT.ClcEmbeddingFallbackContentTemplate
        (match content with
         | none => []
         | some c => [RT.PlaintextTemplate c])]

/-- Follows the wording of the amended claim C1: the attributes the winning
plugin contributes (none when there is no winner or the winner carries no
attrs). -/
def amendedEmbeddingAttrs (node : PyVal) (embedding_type : String)
    (plugins : List EmbeddingsPlugin) : List HtmlAttr :=
  match amendedEmbeddingWinner node embedding_type plugins with
  | some p =>
      match p.call node embedding_type with
      | some inj => inj.attrs.getD []
      | none => []
  | none => []

/-- A minimal embedding block node used by the concrete counterexamples and
witnesses: no title, embedding type code, raw content raw. -/
def exampleEmbeddingNode : PyVal :=
  PyVal.EmbeddingBlockNode PyVal.PyNone
    (some (BlockNodeInfo.mk [] none none none none
      (some (DataValue.StrDataType "code")) none none))
    0 (some "raw")

/-- A plugin whose invocation returns an injection carrying neither widgets
nor attributes. -/
def examplePluginEmpty : EmbeddingsPlugin :=
  EmbeddingsPlugin.mk "p1" (fun _ _ => some (PluginInjection.mk none none))

/-- A plugin whose invocation returns an injection carrying one widget. -/
def examplePluginWidget : EmbeddingsPlugin :=
  EmbeddingsPlugin.mk "p2"
    (fun _ _ => some (PluginInjection.mk (some [RT.PlaintextTemplate "X"]) none))

/-- A second empty-injection plugin with a distinct name (used by the C5
counterexample, which must stay disjoint from the C1 one). -/
def examplePluginEmptyB : EmbeddingsPlugin :=
  EmbeddingsPlugin.mk "pe" (fun _ _ => some (PluginInjection.mk none none))

/-- A trivial templatifier configuration: constant resolver, no plugins. -/
def exampleCfg : DocCollCfg :=
  DocCollCfg.mk (fun _ => "#") (fun _ => []) (fun _ => [])

/-- A configuration whose embeddings-plugin registry returns the
empty-injection plugin and then the widget plugin for embedding type
code. -/
def exampleCfgShortCircuit : DocCollCfg :=
  DocCollCfg.mk (fun _ => "#")
    (fun et => if et = "code" then [examplePluginEmpty, examplePluginWidget] else [])
    (fun _ => [])

/-- A transformer rewriting every inline richtext node into an empty
paragraph (used to exhibit an incompatible intermediate chain result). -/
def exampleXformInlineToParagraph : ClcTreeTransformer Unit :=
  fun n _ =>
    match n with
    | PyVal.RichtextInlineNode _ _ => PyVal.Paragraph []
    | m => m

/-- A transformer rewriting every empty paragraph back into an empty inline
richtext node (repairing what exampleXformInlineToParagraph did). -/
def exampleXformParagraphToInline : ClcTreeTransformer Unit :=
  fun n _ =>
    match n with
    | PyVal.Paragraph [] => PyVal.RichtextInlineNode none []
    | m => m

/-- A one-title, empty-root document whose title is an inline node (used by
the C2 counterexample). -/
def exampleTitledDocument : PyVal :=
  PyVal.Document (PyVal.RichtextInlineNode none [PyVal.StrContent "t"]) none
    (PyVal.RichtextBlockNode PyVal.PyNone none 0 [])

/-- An additive node plugin returning an empty injection (used by the C5
amended-claim witness). -/
def exampleClcPluginEmpty : ClcPlugin :=
  fun _ => some (PluginInjection.mk none none)

/-- An embeddings plugin contributing one attribute and no widgets. -/
def examplePluginAttr : EmbeddingsPlugin :=
  EmbeddingsPlugin.mk "pa"
    (fun _ _ => some (PluginInjection.mk none (some [HtmlAttr.mk "data-embed" "1"])))

/-- An additive node plugin contributing one attribute. -/
def exampleClcPluginAttr : ClcPlugin :=
  fun _ => some (PluginInjection.mk none (some [HtmlAttr.mk "data-node" "0"]))

/-- A configuration with one additive plugin on embedding block nodes and
one attribute-contributing embeddings plugin for type code. -/
def exampleCfgAttrs : DocCollCfg :=
  DocCollCfg.mk (fun _ => "#")
    (fun et => if et = "code" then [examplePluginAttr] else [])
    (fun nt => if nt = NodeType.EmbeddingBlockNode then [exampleClcPluginAttr] else [])

/-- A docnote templatifier standing in for ModuleSummaryTemplate.from_summary
in concrete witnesses. -/
def exampleDnTemplatify : Unit → Except PyErr RT :=
  fun _ => Except.ok (RT.PlaintextTemplate "")

/-- A stored document used by the duplicate-add witness. -/
def exampleStoredDocument : HtmlDocument String Unit :=
  HtmlDocument.mk "doc1" (HtmlDocumentSrc.clc (PyVal.AnnotationNode "x"))
    (RT.PlaintextTemplate "x")

/-- A collection already holding one document under the identifier doc1. -/
def exampleCollection : HtmlDocumentCollection String Unit :=
  HtmlDocumentCollection.mk exampleCfg [("doc1", exampleStoredDocument)]

/-- Inversion of a successful Except bind. -/
theorem except_bind_ok {ε α β : Type} {x : Except ε α} {f : α → Except ε β}
    {b : β} (h : x.bind f = Except.ok b) :
    ∃ a, x = Except.ok a ∧ f a = Except.ok b := by
  cases x with
  | error e => simp [Except.bind] at h
  | ok a => exact ⟨a, rfl, h⟩

/-- throw in the Except monad is Except.error. -/
theorem except_throw_eq {e a : Type} (x : e) :
    (throw x : Except e a) = Except.error x := rfl

/-- Folding an append-only step equals appending the flattened per-element
glue to the accumulator. -/
theorem foldl_append_glue {α β : Type} (g : α → List β) :
    ∀ (l : List α) (acc : List β),
      l.foldl (fun r w => r ++ g w) acc = acc ++ (l.map g).flatten := by
  intro l
  induction l with
  | nil => intro acc; simp
  | cons x xs ih => intro acc; simp [List.foldl_cons, ih, List.append_assoc]

/-- Claim C4: applying an empty transformer chain to any document with any
context returns the input document unchanged. -/
theorem c4_empty_chain_identity {T : Type} (document : PyVal)
    (context : Option T) :
    apply_transformers document [] context = Except.ok document := rfl

/-- Claim C7: both spec-metadata normalizers return attribute lists sorted
by attribute key, ascending, for every info record; and the concrete info
record with target x and style modifiers y normalizes to
[(class, y), (target, x)]. -/
theorem c7_sorted_attributes :
    (∀ (a b : HtmlAttr), attrLe a b ↔ a.key ≤ b.key)
    ∧ (∀ (value : BlockNodeInfo) (target_resolver : DataValue → String),
        List.Sorted attrLe (transform_spec_metadatas_block value target_resolver))
    ∧ (∀ (value : InlineNodeInfo) (target_resolver : DataValue → String),
        List.Sorted attrLe (transform_spec_metadatas_inline value target_resolver))
    ∧ transform_spec_metadatas_block
        (BlockNodeInfo.mk [] (some (DataValue.StrDataType "x")) none none none
          none (some (DataValue.StrDataType "y")) none)
        (fun _ => "#")
        = [HtmlAttr.mk "class" "y", HtmlAttr.mk "target" "x"]
    ∧ transform_spec_metadatas_inline
        (InlineNodeInfo.mk [] (some (DataValue.StrDataType "x")) none none
          none (some (DataValue.StrDataType "y")))
        (fun _ => "#")
        = [HtmlAttr.mk "class" "y", HtmlAttr.mk "target" "x"] := by
  refine ⟨?_, ?_, ?_, ?_, ?_⟩
  · intro a b
    exact (String.le_iff_toList_le).symm
  · intro value target_resolver
    exact List.sorted_insertionSort attrLe _
  · intro value target_resolver
    exact List.sorted_insertionSort attrLe _
  · decide
  · decide

/-- wrap_node_start emits, wrapper by wrapper in forward order, the open
token run of each wrapper. -/
theorem wrap_node_start_decomp (wrappers : List NodeContentTagWrapper) :
    wrap_node_start wrappers = (wrappers.map wrapperStartTokens).flatten := by
  have h : wrap_node_start wrappers
      = wrappers.foldl (fun r w => r ++ wrapperStartTokens w) [] := by
    simp only [wrap_node_start]
    apply List.foldl_ext
    intro a x _
    simp [wrapperStartTokens, foldl_append_glue, List.append_assoc]
  rw [h, foldl_append_glue]
  simp

/-- wrap_node_end emits, wrapper by wrapper in reverse order, the close
token run of each wrapper. -/
theorem wrap_node_end_decomp (wrappers : List NodeContentTagWrapper) :
    wrap_node_end wrappers = (wrappers.reverse.map wrapperEndTokens).flatten := by
  have h : wrap_node_end wrappers
      = wrappers.reverse.foldl (fun r w => r ++ wrapperEndTokens w) [] := by
    simp only [wrap_node_end]
    apply List.foldl_ext
    intro a x _
    simp [wrapperEndTokens]
  rw [h, foldl_append_glue]
  simp

/-- Claim C6: the derived tag-wrapper list is ordered semantic-role
wrapper, then link wrapper, then formatting wrapper, each when present;
start-tag emission walks the list forward emitting each open tag run with
its attributes, end-tag emission walks it in reverse emitting each close
tag run; and the node with link target http://e.example and formatting
strong derives wrappers [a, strong] and renders start tags
<a href="http://e.example"><strong> and end tags </strong></a>. -/
theorem c6_tag_wrapper_composition :
    (∀ (info : InlineNodeInfo) (target_resolver : DataValue → String),
        derive_inlinenode_tag_wrappers info target_resolver
          = (claimedSemanticWrapperInline info).toList
            ++ (claimedLinkWrapperInline info target_resolver).toList
            ++ (claimedFormattingWrapperInline info).toList)
    ∧ (∀ (wrappers : List NodeContentTagWrapper),
        wrap_node_start wrappers = (wrappers.map wrapperStartTokens).flatten)
    ∧ (∀ (wrappers : List NodeContentTagWrapper),
        wrap_node_end wrappers = (wrappers.reverse.map wrapperEndTokens).flatten)
    ∧ derive_inlinenode_tag_wrappers
        (InlineNodeInfo.mk [] (some (DataValue.StrDataType "http://e.example"))
          (some InlineFormatting.STRONG) none none none)
        (fun _ => "#")
        = [NodeContentTagWrapper.mk "a" [HtmlAttr.mk "href" "http://e.example"],
           NodeContentTagWrapper.mk "strong" []]
    ∧ renderWrapTokens (wrap_node_start
        [NodeContentTagWrapper.mk "a" [HtmlAttr.mk "href" "http://e.example"],
         NodeContentTagWrapper.mk "strong" []])
        = "<a href=\"http://e.example\"><strong>"
    ∧ renderWrapTokens (wrap_node_end
        [NodeContentTagWrapper.mk "a" [HtmlAttr.mk "href" "http://e.example"],
         NodeContentTagWrapper.mk "strong" []])
        = "</strong></a>" := by
  refine ⟨?_, wrap_node_start_decomp, wrap_node_end_decomp, ?_, ?_, ?_⟩
  · intro info target_resolver
    obtain ⟨m, tg, fm, sm, su, st⟩ := info
    cases sm <;> cases tg <;> cases fm <;> rfl
  · rfl
  · rfl
  · rfl

/-- Claim C2 counterexample: with the chain [inline-to-paragraph,
paragraph-to-inline] on a document whose title is an inline node, the first
transformer application at the title node produces a Paragraph, a variant
incompatible with the title slot, and the second repairs it; the pipeline
validates only the final chain result, so no type-contract error is raised
and the whole transformation succeeds. -/
theorem c2_counterexample :
    exampleXformInlineToParagraph
        (PyVal.RichtextInlineNode none [PyVal.StrContent "t"]) none
      = PyVal.Paragraph []
    ∧ isRichtextInlineOrNone (PyVal.Paragraph []) = false
    ∧ apply_transformers exampleTitledDocument
        [exampleXformInlineToParagraph, exampleXformParagraphToInline] none
      = Except.ok (PyVal.Document (PyVal.RichtextInlineNode none []) none
          (PyVal.RichtextBlockNode PyVal.PyNone none 0 [])) := by
  refine ⟨rfl, rfl, ?_⟩
  simp [apply_transformers, applyXformNode, applyXformList,
    exampleTitledDocument, exampleXformInlineToParagraph,
    exampleXformParagraphToInline, applyChain, isRichtextInlineOrNone,
    isRichtextBlockNode, isDocumentNode, isInlineContent,
    isParagraphOrBlockNode, pure, Except.pure, bind, Except.bind]

/-- Claim C2 (amended): during applyTransformers, the pipeline validates
the fully transformed final result of each child against what the parent
expects (a transformed title must be inline-node-or-null, a transformed
paragraph child one of inline node / list / annotation, and so on),
raising a fatal type-contract error on an incompatible final result;
results of individual transformer applications inside the chain are not
inspected, so an incompatible intermediate repaired by a later transformer
is accepted. -/
theorem c2_final_result_validation {T : Type} :
    (∀ (transformers : List (ClcTreeTransformer T)) (context : Option T)
        (title root : PyVal) (info : Option BlockNodeInfo) (v : PyVal),
        applyXformNode transformers context title = Except.ok v →
        isRichtextInlineOrNone v = false →
        applyXformNode transformers context (PyVal.Document title info root)
          = Except.error (PyErr.typeError "Invalid transformation result!"))
    ∧ (∀ (transformers : List (ClcTreeTransformer T)) (context : Option T)
        (c v : PyVal),
        applyXformNode transformers context c = Except.ok v →
        isParagraphChild v = false →
        applyXformNode transformers context (PyVal.Paragraph [c])
          = Except.error (PyErr.typeError "Invalid transformation result!")) := by
  constructor
  · intro transformers context title root info v hok hbad
    cases title with
    | PyNone =>
        simp [applyXformNode, pure, Except.pure] at hok
        rw [← hok] at hbad
        simp [isRichtextInlineOrNone] at hbad
    | Document t i r =>
        simp_all [applyXformNode, pure, Except.pure, bind, Except.bind,
          isRichtextInlineOrNone, except_throw_eq]
    | RichtextBlockNode t i d c =>
        simp_all [applyXformNode, pure, Except.pure, bind, Except.bind,
          isRichtextInlineOrNone, except_throw_eq]
    | EmbeddingBlockNode t i d c =>
        simp_all [applyXformNode, pure, Except.pure, bind, Except.bind,
          isRichtextInlineOrNone, except_throw_eq]
    | Paragraph c =>
        simp_all [applyXformNode, pure, Except.pure, bind, Except.bind,
          isRichtextInlineOrNone, except_throw_eq]
    | List_ ty c =>
        simp_all [applyXformNode, pure, Except.pure, bind, Except.bind,
          isRichtextInlineOrNone, except_throw_eq]
    | ListItem ix c =>
        simp_all [applyXformNode, pure, Except.pure, bind, Except.bind,
          isRichtextInlineOrNone, except_throw_eq]
    | RichtextInlineNode i c =>
        simp_all [applyXformNode, pure, Except.pure, bind, Except.bind,
          isRichtextInlineOrNone, except_throw_eq]
    | AnnotationNode c =>
        simp_all [applyXformNode, pure, Except.pure, bind, Except.bind,
          isRichtextInlineOrNone, except_throw_eq]
    | StrContent s =>
        simp_all [applyXformNode, pure, Except.pure, bind, Except.bind,
          isRichtextInlineOrNone, except_throw_eq]
  · intro transformers context c v hok hbad
    simp [applyXformNode, applyXformList, hok, hbad, pure, Except.pure,
      bind, Except.bind, except_throw_eq]

/-- Witness for the amended claim C2: a concrete chain whose single
transformer turns the inline title into a paragraph, so the final result
of the chain at the child is incompatible and the pipeline rejects it, for
both the title position and the paragraph-child position. -/
theorem c2_final_result_validation_witness :
    applyXformNode [exampleXformInlineToParagraph] none
        (PyVal.RichtextInlineNode none []) = Except.ok (PyVal.Paragraph [])
    ∧ isRichtextInlineOrNone (PyVal.Paragraph []) = false
    ∧ applyXformNode [exampleXformInlineToParagraph] none
        (PyVal.Document (PyVal.RichtextInlineNode none []) none
          (PyVal.RichtextBlockNode PyVal.PyNone none 0 []))
        = Except.error (PyErr.typeError "Invalid transformation result!")
    ∧ isParagraphChild (PyVal.Paragraph []) = false
    ∧ applyXformNode [exampleXformInlineToParagraph] none
        (PyVal.Paragraph [PyVal.RichtextInlineNode none []])
        = Except.error (PyErr.typeError "Invalid transformation result!") := by
  have h1 : applyXformNode [exampleXformInlineToParagraph] none
      (PyVal.RichtextInlineNode none []) = Except.ok (PyVal.Paragraph []) := by
    simp [applyXformNode, applyXformList, applyChain,
      exampleXformInlineToParagraph, isInlineContent, pure, Except.pure,
      bind, Except.bind]
  refine ⟨h1, rfl, ?_, rfl, ?_⟩
  · exact c2_final_result_validation.1 _ _ _ _ _ _ h1 rfl
  · exact c2_final_result_validation.2 _ _ _ _ h1 rfl

/-- Claim C9: for every composite node the reconstruction handed to the
transformer chain preserves all non-recursed fields unchanged: a
RichtextBlockNode keeps its info and depth, an EmbeddingBlockNode keeps
its info, depth and raw content, a List_ keeps its list type, and a
ListItem keeps its index, each equal to the corresponding field of the
input node. -/
theorem c9_reconstruction_preserves_fields {T : Type} :
    (∀ (transformers : List (ClcTreeTransformer T)) (context : Option T)
        (title : PyVal) (info : Option BlockNodeInfo) (depth : Int)
        (content : List PyVal) (r : PyVal),
        applyXformNode transformers context
            (PyVal.RichtextBlockNode title info depth content) = Except.ok r →
        ∃ new_title new_content,
          r = applyChain transformers context
            (PyVal.RichtextBlockNode new_title info depth new_content))
    ∧ (∀ (transformers : List (ClcTreeTransformer T)) (context : Option T)
        (title : PyVal) (info : Option BlockNodeInfo) (depth : Int)
        (content : Option String) (r : PyVal),
        applyXformNode transformers context
            (PyVal.EmbeddingBlockNode title info depth content) = Except.ok r →
        ∃ new_title,
          r = applyChain transformers context
            (PyVal.EmbeddingBlockNode new_title info depth content))
    ∧ (∀ (transformers : List (ClcTreeTransformer T)) (context : Option T)
        (type_ : ListType) (content : List PyVal) (r : PyVal),
        applyXformNode transformers context (PyVal.List_ type_ content)
          = Except.ok r →
        ∃ new_content,
          r = applyChain transformers context (PyVal.List_ type_ new_content))
    ∧ (∀ (transformers : List (ClcTreeTransformer T)) (context : Option T)
        (index : Option Int) (content : List PyVal) (r : PyVal),
        applyXformNode transformers context (PyVal.ListItem index content)
          = Except.ok r →
        ∃ new_content,
          r = applyChain transformers context
            (PyVal.ListItem index new_content)) := by
  refine ⟨?_, ?_, ?_, ?_⟩
  · intro transformers context title info depth content r h
    rw [applyXformNode.eq_def] at h
    obtain ⟨nt, hnt, h⟩ := except_bind_ok h
    obtain ⟨nc, hnc, h⟩ := except_bind_ok h
    by_cases hall : nc.all isParagraphOrBlockNode
    · simp [hall, pure, Except.pure] at h
      exact ⟨nt, nc, h.symm⟩
    · simp [hall, except_throw_eq] at h
  · intro transformers context title info depth content r h
    rw [applyXformNode.eq_def] at h
    obtain ⟨nt, hnt, h⟩ := except_bind_ok h
    simp [pure, Except.pure] at h
    exact ⟨nt, h.symm⟩
  · intro transformers context type_ content r h
    rw [applyXformNode.eq_def] at h
    obtain ⟨nc, hnc, h⟩ := except_bind_ok h
    by_cases hall : nc.all isListItemNode
    · simp [hall, pure, Except.pure] at h
      exact ⟨nc, h.symm⟩
    · simp [hall, except_throw_eq] at h
  · intro transformers context index content r h
    rw [applyXformNode.eq_def] at h
    obtain ⟨nc, hnc, h⟩ := except_bind_ok h
    by_cases hall : nc.all isParagraphNode
    · simp [hall, pure, Except.pure] at h
      exact ⟨nc, h.symm⟩
    · simp [hall, except_throw_eq] at h

/-- Witness for claim C9 at concrete nodes with the empty chain. -/
theorem c9_reconstruction_witness :
    (∃ new_title new_content,
        PyVal.RichtextBlockNode PyVal.PyNone none 2 []
          = applyChain ([] : List (ClcTreeTransformer Unit)) none
              (PyVal.RichtextBlockNode new_title none 2 new_content))
    ∧ (∃ new_title,
        PyVal.EmbeddingBlockNode PyVal.PyNone none 1 (some "raw")
          = applyChain ([] : List (ClcTreeTransformer Unit)) none
              (PyVal.EmbeddingBlockNode new_title none 1 (some "raw")))
    ∧ (∃ new_content,
        PyVal.List_ ListType.ORDERED []
          = applyChain ([] : List (ClcTreeTransformer Unit)) none
              (PyVal.List_ ListType.ORDERED new_content))
    ∧ (∃ new_content,
        PyVal.ListItem (some 3) []
          = applyChain ([] : List (ClcTreeTransformer Unit)) none
              (PyVal.ListItem (some 3) new_content)) := by
  refine ⟨?_, ?_, ?_, ?_⟩
  · exact c9_reconstruction_preserves_fields.1 [] none PyVal.PyNone none 2 [] _
      (by simp [applyXformNode, applyXformList, applyChain, pure, Except.pure,
        bind, Except.bind])
  · exact c9_reconstruction_preserves_fields.2.1 [] none PyVal.PyNone none 1
      (some "raw") _
      (by simp [applyXformNode, applyChain, pure, Except.pure, bind, Except.bind])
  · exact c9_reconstruction_preserves_fields.2.2.1 [] none ListType.ORDERED [] _
      (by simp [applyXformNode, applyXformList, applyChain, pure, Except.pure,
        bind, Except.bind])
  · exact c9_reconstruction_preserves_fields.2.2.2 [] none (some 3) [] _
      (by simp [applyXformNode, applyXformList, applyChain, pure, Except.pure,
        bind, Except.bind])

/-- The embedding resolution loop, characterized: the resulting content is
the amended-claim content (first non-None injection wins, fallback
otherwise) and the resulting attribute list is the incoming accumulator
followed by the winning plugin attributes. -/
theorem resolveEmbeddingContent_characterization
    (node : PyVal) (content : Option String) (embedding_type : String) :
    ∀ (plugins : List EmbeddingsPlugin) (plugin_attrs : List HtmlAttr),
      resolveEmbeddingContent node content embedding_type plugins plugin_attrs
        = (amendedEmbeddingContent node content embedding_type plugins,
           plugin_attrs ++ amendedEmbeddingAttrs node embedding_type plugins) := by
  intro plugins
  induction plugins with
  | nil =>
      intro plugin_attrs
      simp [resolveEmbeddingContent, amendedEmbeddingContent,
        amendedEmbeddingAttrs, amendedEmbeddingWinner]
  | cons p ps ih =>
      intro plugin_attrs
      cases hp : p.call node embedding_type with
      | some inj =>
          cases hw : inj.widgets <;> cases ha : inj.attrs <;>
            simp [resolveEmbeddingContent, amendedEmbeddingContent,
              amendedEmbeddingAttrs, amendedEmbeddingWinner, List.find?_cons,
              hp, hw, ha]
      | none =>
          simp only [resolveEmbeddingContent, hp, ih]
          simp [amendedEmbeddingContent, amendedEmbeddingAttrs,
            amendedEmbeddingWinner, List.find?_cons, hp]

/-- Successful embedding templatification, characterized: every component
of the result except the title slot is determined by the node fields, with
the embedding content and extended attribute list coming from the
resolution loop seeded with the additive plugin attributes. -/
theorem embedding_from_ast_node_ok
    (doc_coll : DocCollCfg) (ntitle : PyVal) (i : BlockNodeInfo)
    (ev : DataValue) (depth : Int) (content : Option String) (r : RT)
    (hembed : i.embed = some ev)
    (h : ClcEmbeddingBlocknodeTemplate_from_ast_node doc_coll
        (PyVal.EmbeddingBlockNode ntitle (some i) depth content)
        = Except.ok r) :
    ∃ title,
      r = RT.ClcEmbeddingBlocknodeTemplate
        (derive_blocknode_tag_wrappers i doc_coll.target_resolver)
        title
        (ClcMetadataTemplate_from_ast_node i.metadata doc_coll.target_resolver)
        (resolveEmbeddingContent
          (PyVal.EmbeddingBlockNode ntitle (some i) depth content)
          content ev.valueStr
          (doc_coll.get_embeddings_plugins ev.valueStr)
          (apply_plugins doc_coll NodeType.EmbeddingBlockNode
            (PyVal.EmbeddingBlockNode ntitle (some i) depth content)).1).1
        (resolveEmbeddingContent
          (PyVal.EmbeddingBlockNode ntitle (some i) depth content)
          content ev.valueStr
          (doc_coll.get_embeddings_plugins ev.valueStr)
          (apply_plugins doc_coll NodeType.EmbeddingBlockNode
            (PyVal.EmbeddingBlockNode ntitle (some i) depth content)).1).2
        (apply_plugins doc_coll NodeType.EmbeddingBlockNode
          (PyVal.EmbeddingBlockNode ntitle (some i) depth content)).2
        (transform_spec_metadatas_block i doc_coll.target_resolver) := by
  rw [ClcEmbeddingBlocknodeTemplate_from_ast_node.eq_def] at h
  obtain ⟨title, htitle, h⟩ := except_bind_ok h
  simp only [hembed, pure, Except.pure] at h
  simp at h
  exact ⟨title, h.symm⟩

/-- Claim C1 counterexample: with a first plugin returning an empty
injection (no widgets, no attributes) and a second returning a widget, the
source loop lets the first plugin win the short circuit, while the claim
(first NON-EMPTY injection wins) predicts the second plugin content; the
two disagree. -/
theorem c1_counterexample :
    (resolveEmbeddingContent exampleEmbeddingNode (some "raw") "code"
        [examplePluginEmpty, examplePluginWidget] []).1
      = [RT.ClcEmbeddingPluginContentTemplate "p1" []]
    ∧ c1ClaimedEmbeddingContent exampleEmbeddingNode (some "raw") "code"
        [examplePluginEmpty, examplePluginWidget]
      = [RT.ClcEmbeddingPluginContentTemplate "p2" [RT.PlaintextTemplate "X"]]
    ∧ (resolveEmbeddingContent exampleEmbeddingNode (some "raw") "code"
        [examplePluginEmpty, examplePluginWidget] []).1
      ≠ c1ClaimedEmbeddingContent exampleEmbeddingNode (some "raw") "code"
        [examplePluginEmpty, examplePluginWidget] := by
  refine ⟨rfl, rfl, ?_⟩
  simp [resolveEmbeddingContent, c1ClaimedEmbeddingContent,
    examplePluginEmpty, examplePluginWidget, PluginInjection.isEmptyInjection]

/-- Claim C1 (amended): for every embedding block node, the embedding
plugins registered for the node embedding-type string are tried in
registration order; the first plugin returning a non-None injection (even
one carrying neither widgets nor attributes) wins: its widgets (empty when
absent) become the sole embedding content, wrapped in a plugin-content
container tagged with the winning plugin name, its attributes (when
present) are appended to the node plugin attributes after the additive
ones, and all remaining plugins are skipped. If no plugin returns an
injection, the embedding content is the raw embedding text (or nothing if
content is absent) wrapped in the plaintext-fallback container. -/
theorem c1_first_non_none_injection_wins
    (doc_coll : DocCollCfg) (ntitle : PyVal) (i : BlockNodeInfo)
    (ev : DataValue) (depth : Int) (content : Option String) (r : RT)
    (hembed : i.embed = some ev)
    (h : ClcEmbeddingBlocknodeTemplate_from_ast_node doc_coll
        (PyVal.EmbeddingBlockNode ntitle (some i) depth content)
        = Except.ok r) :
    ∃ title,
      r = RT.ClcEmbeddingBlocknodeTemplate
        (derive_blocknode_tag_wrappers i doc_coll.target_resolver)
        title
        (ClcMetadataTemplate_from_ast_node i.metadata doc_coll.target_resolver)
        (amendedEmbeddingContent
          (PyVal.EmbeddingBlockNode ntitle (some i) depth content)
          content ev.valueStr
          (doc_coll.get_embeddings_plugins ev.valueStr))
        ((apply_plugins doc_coll NodeType.EmbeddingBlockNode
            (PyVal.EmbeddingBlockNode ntitle (some i) depth content)).1
          ++ amendedEmbeddingAttrs
              (PyVal.EmbeddingBlockNode ntitle (some i) depth content)
              ev.valueStr
              (doc_coll.get_embeddings_plugins ev.valueStr))
        (apply_plugins doc_coll NodeType.EmbeddingBlockNode
          (PyVal.EmbeddingBlockNode ntitle (some i) depth content)).2
        (transform_spec_metadatas_block i doc_coll.target_resolver) := by
  obtain ⟨title, ht⟩ :=
    embedding_from_ast_node_ok doc_coll ntitle i ev depth content r hembed h
  rw [resolveEmbeddingContent_characterization] at ht
  exact ⟨title, ht⟩

/-- Witness for the amended claim C1 at the concrete two-plugin registry:
the empty-injection plugin p1 wins the short circuit. -/
theorem c1_first_non_none_injection_wins_witness :
    ∃ title,
      RT.ClcEmbeddingBlocknodeTemplate [] [] []
          [RT.ClcEmbeddingPluginContentTemplate "p1" []] [] []
          [HtmlAttr.mk "embedding" "code"]
        = RT.ClcEmbeddingBlocknodeTemplate
            (derive_blocknode_tag_wrappers
              (BlockNodeInfo.mk [] none none none none
                (some (DataValue.StrDataType "code")) none none)
              exampleCfgShortCircuit.target_resolver)
            title
            (ClcMetadataTemplate_from_ast_node []
              exampleCfgShortCircuit.target_resolver)
            (amendedEmbeddingContent exampleEmbeddingNode (some "raw") "code"
              (exampleCfgShortCircuit.get_embeddings_plugins "code"))
            ((apply_plugins exampleCfgShortCircuit NodeType.EmbeddingBlockNode
                exampleEmbeddingNode).1
              ++ amendedEmbeddingAttrs exampleEmbeddingNode "code"
                  (exampleCfgShortCircuit.get_embeddings_plugins "code"))
            (apply_plugins exampleCfgShortCircuit NodeType.EmbeddingBlockNode
              exampleEmbeddingNode).2
            (transform_spec_metadatas_block
              (BlockNodeInfo.mk [] none none none none
                (some (DataValue.StrDataType "code")) none none)
              exampleCfgShortCircuit.target_resolver) := by
  exact c1_first_non_none_injection_wins exampleCfgShortCircuit PyVal.PyNone
    (BlockNodeInfo.mk [] none none none none
      (some (DataValue.StrDataType "code")) none none)
    (DataValue.StrDataType "code") 0 (some "raw")
    (RT.ClcEmbeddingBlocknodeTemplate [] [] []
      [RT.ClcEmbeddingPluginContentTemplate "p1" []] [] []
      [HtmlAttr.mk "embedding" "code"])
    rfl
    (by simp [ClcEmbeddingBlocknodeTemplate_from_ast_node,
      exampleCfgShortCircuit, examplePluginEmpty, examplePluginWidget,
      apply_plugins, apply_plugins_list, resolveEmbeddingContent,
      derive_blocknode_tag_wrappers, ClcMetadataTemplate_from_ast_node,
      transform_spec_metadatas_block, DataValue.valueStr,
      coerceSpecFieldValue, isLinkDataType, BlockMetadataMagic.members,
      html_escape, htmlEscapeChar, pure, Except.pure, bind, Except.bind] <;>
      rfl)

/-- Claim C10: in a successfully templatified embedding block, the plugin
attribute list is exactly the additive node-plugin attributes followed by
the attributes the short-circuiting embedding loop contributes: every
additive attribute precedes every winning-plugin attribute. -/
theorem c10_additive_attrs_precede_embedding_attrs
    (doc_coll : DocCollCfg) (ntitle : PyVal) (i : BlockNodeInfo)
    (ev : DataValue) (depth : Int) (content : Option String) (r : RT)
    (hembed : i.embed = some ev)
    (h : ClcEmbeddingBlocknodeTemplate_from_ast_node doc_coll
        (PyVal.EmbeddingBlockNode ntitle (some i) depth content)
        = Except.ok r) :
    ∃ title,
      r = RT.ClcEmbeddingBlocknodeTemplate
        (derive_blocknode_tag_wrappers i doc_coll.target_resolver)
        title
        (ClcMetadataTemplate_from_ast_node i.metadata doc_coll.target_resolver)
        (resolveEmbeddingContent
          (PyVal.EmbeddingBlockNode ntitle (some i) depth content)
          content ev.valueStr
          (doc_coll.get_embeddings_plugins ev.valueStr) []).1
        ((apply_plugins doc_coll NodeType.EmbeddingBlockNode
            (PyVal.EmbeddingBlockNode ntitle (some i) depth content)).1
          ++ (resolveEmbeddingContent
              (PyVal.EmbeddingBlockNode ntitle (some i) depth content)
              content ev.valueStr
              (doc_coll.get_embeddings_plugins ev.valueStr) []).2)
        (apply_plugins doc_coll NodeType.EmbeddingBlockNode
          (PyVal.EmbeddingBlockNode ntitle (some i) depth content)).2
        (transform_spec_metadatas_block i doc_coll.target_resolver) := by
  obtain ⟨title, ht⟩ :=
    embedding_from_ast_node_ok doc_coll ntitle i ev depth content r hembed h
  rw [resolveEmbeddingContent_characterization] at ht
  refine ⟨title, ?_⟩
  rw [resolveEmbeddingContent_characterization]
  simpa using ht

/-- Witness for claim C10: with one additive plugin attribute and one
embedding-plugin attribute, the additive one comes first. -/
theorem c10_additive_attrs_precede_embedding_attrs_witness :
    ∃ title,
      RT.ClcEmbeddingBlocknodeTemplate [] [] []
          [RT.ClcEmbeddingPluginContentTemplate "pa" []]
          [HtmlAttr.mk "data-node" "0", HtmlAttr.mk "data-embed" "1"] []
          [HtmlAttr.mk "embedding" "code"]
        = RT.ClcEmbeddingBlocknodeTemplate
            (derive_blocknode_tag_wrappers
              (BlockNodeInfo.mk [] none none none none
                (some (DataValue.StrDataType "code")) none none)
              exampleCfgAttrs.target_resolver)
            title
            (ClcMetadataTemplate_from_ast_node []
              exampleCfgAttrs.target_resolver)
            (resolveEmbeddingContent exampleEmbeddingNode (some "raw") "code"
              (exampleCfgAttrs.get_embeddings_plugins "code") []).1
            ((apply_plugins exampleCfgAttrs NodeType.EmbeddingBlockNode
                exampleEmbeddingNode).1
              ++ (resolveEmbeddingContent exampleEmbeddingNode (some "raw")
                  "code" (exampleCfgAttrs.get_embeddings_plugins "code") []).2)
            (apply_plugins exampleCfgAttrs NodeType.EmbeddingBlockNode
              exampleEmbeddingNode).2
            (transform_spec_metadatas_block
              (BlockNodeInfo.mk [] none none none none
                (some (DataValue.StrDataType "code")) none none)
              exampleCfgAttrs.target_resolver) := by
  exact c10_additive_attrs_precede_embedding_attrs exampleCfgAttrs PyVal.PyNone
    (BlockNodeInfo.mk [] none none none none
      (some (DataValue.StrDataType "code")) none none)
    (DataValue.StrDataType "code") 0 (some "raw")
    (RT.ClcEmbeddingBlocknodeTemplate [] [] []
      [RT.ClcEmbeddingPluginContentTemplate "pa" []]
      [HtmlAttr.mk "data-node" "0", HtmlAttr.mk "data-embed" "1"] []
      [HtmlAttr.mk "embedding" "code"])
    rfl
    (by simp [ClcEmbeddingBlocknodeTemplate_from_ast_node, exampleCfgAttrs,
      examplePluginAttr, exampleClcPluginAttr, apply_plugins,
      apply_plugins_list, resolveEmbeddingContent,
      derive_blocknode_tag_wrappers, ClcMetadataTemplate_from_ast_node,
      transform_spec_metadatas_block, DataValue.valueStr,
      coerceSpecFieldValue, isLinkDataType, BlockMetadataMagic.members,
      html_escape, htmlEscapeChar, pure, Except.pure, bind, Except.bind] <;>
      rfl)

/-- Claim C5 counterexample: a plugin whose injection has absent widgets
and absent attributes does win the short circuit in the source loop,
producing a plugin-content container with empty body instead of whatever
the later plugins or the fallback would produce: dropping it changes the
embedding content. -/
theorem c5_counterexample :
    resolveEmbeddingContent exampleEmbeddingNode (some "raw") "code"
        [examplePluginEmptyB] []
      = ([RT.ClcEmbeddingPluginContentTemplate "pe" []], [])
    ∧ resolveEmbeddingContent exampleEmbeddingNode (some "raw") "code" [] []
      = ([RT.ClcEmbeddingFallbackContentTemplate [RT.PlaintextTemplate "raw"]],
         [])
    ∧ resolveEmbeddingContent exampleEmbeddingNode (some "raw") "code"
        [examplePluginEmptyB] []
      ≠ resolveEmbeddingContent exampleEmbeddingNode (some "raw") "code"
        [] [] := by
  refine ⟨rfl, rfl, ?_⟩
  simp [resolveEmbeddingContent, examplePluginEmptyB]

/-- Claim C5 (amended): an injection carrying neither widgets nor
attributes is equivalent to no injection for the additive plugin
composition, where it contributes nothing to either accumulator; in the
short-circuiting embedding resolver, however, such a non-None injection
wins the short circuit, producing a plugin-content container tagged with
that plugin name with empty content and appending no attributes, and the
later plugins and the fallback are skipped. -/
theorem c5_empty_injection_equivalence :
    (∀ (p : ClcPlugin) (ps1 ps2 : List ClcPlugin) (node : PyVal),
        p node = some (PluginInjection.mk none none) →
        apply_plugins_list (ps1 ++ p :: ps2) node
          = apply_plugins_list (ps1 ++ ps2) node)
    ∧ (∀ (ep : EmbeddingsPlugin) (rest : List EmbeddingsPlugin) (node : PyVal)
        (content : Option String) (embedding_type : String)
        (plugin_attrs : List HtmlAttr),
        ep.call node embedding_type = some (PluginInjection.mk none none) →
        resolveEmbeddingContent node content embedding_type (ep :: rest)
            plugin_attrs
          = ([RT.ClcEmbeddingPluginContentTemplate ep.plugin_name []],
             plugin_attrs)) := by
  constructor
  · intro p ps1 ps2 node hp
    simp [apply_plugins_list, List.foldl_append, List.foldl_cons, hp]
  · intro ep rest node content embedding_type plugin_attrs hp
    simp [resolveEmbeddingContent, hp]

/-- Witness for the amended claim C5 at concrete plugins. -/
theorem c5_empty_injection_equivalence_witness :
    apply_plugins_list ([] ++ exampleClcPluginEmpty :: []) exampleEmbeddingNode
      = apply_plugins_list ([] ++ []) exampleEmbeddingNode
    ∧ resolveEmbeddingContent exampleEmbeddingNode (some "raw") "code"
        (examplePluginEmptyB :: []) []
      = ([RT.ClcEmbeddingPluginContentTemplate examplePluginEmptyB.plugin_name []],
         []) := by
  constructor
  · exact c5_empty_injection_equivalence.1 exampleClcPluginEmpty [] []
      exampleEmbeddingNode rfl
  · exact c5_empty_injection_equivalence.2 examplePluginEmptyB []
      exampleEmbeddingNode (some "raw") "code" [] rfl

/-- Successful richtext templatification always yields a richtext block
template. -/
theorem richtext_from_ast_node_ok_shape
    (doc_coll : DocCollCfg) (n : PyVal) (r : RT)
    (h : ClcRichtextBlocknodeTemplate_from_ast_node doc_coll n = Except.ok r) :
    ∃ tw title m body pa pw sa,
      r = RT.ClcRichtextBlocknodeTemplate tw title m body pa pw sa := by
  cases n with
  | RichtextBlockNode ntitle info depth content =>
      rw [ClcRichtextBlocknodeTemplate_from_ast_node.eq_def] at h
      obtain ⟨title, htitle, h⟩ := except_bind_ok h
      obtain ⟨tc, htc, h⟩ := except_bind_ok h
      cases info with
      | none =>
          simp [pure, Except.pure] at h
          exact ⟨_, _, _, _, _, _, _, h.symm⟩
      | some i =>
          simp [pure, Except.pure] at h
          exact ⟨_, _, _, _, _, _, _, h.symm⟩
  | Document title info root =>
      rw [ClcRichtextBlocknodeTemplate_from_ast_node.eq_def] at h
      simp [except_throw_eq] at h
  | EmbeddingBlockNode title info depth content =>
      rw [ClcRichtextBlocknodeTemplate_from_ast_node.eq_def] at h
      simp [except_throw_eq] at h
  | Paragraph content =>
      rw [ClcRichtextBlocknodeTemplate_from_ast_node.eq_def] at h
      simp [except_throw_eq] at h
  | List_ type_ content =>
      rw [ClcRichtextBlocknodeTemplate_from_ast_node.eq_def] at h
      simp [except_throw_eq] at h
  | ListItem index content =>
      rw [ClcRichtextBlocknodeTemplate_from_ast_node.eq_def] at h
      simp [except_throw_eq] at h
  | RichtextInlineNode info content =>
      rw [ClcRichtextBlocknodeTemplate_from_ast_node.eq_def] at h
      simp [except_throw_eq] at h
  | AnnotationNode content =>
      rw [ClcRichtextBlocknodeTemplate_from_ast_node.eq_def] at h
      simp [except_throw_eq] at h
  | StrContent s =>
      rw [ClcRichtextBlocknodeTemplate_from_ast_node.eq_def] at h
      simp [except_throw_eq] at h
  | PyNone =>
      rw [ClcRichtextBlocknodeTemplate_from_ast_node.eq_def] at h
      simp [except_throw_eq] at h

/-- Claim C8: templatifying a Document wrapper templatifies the inner root
node first; when the Document carries no info record the result is exactly
the root templatification, and when it does carry one the resulting
template keeps every slot of the root templatification except the metadata
entries, which are replaced entirely (never merged) with the ones derived
from the Document info record. -/
theorem c8_document_metadata_replacement :
    (∀ (doc_coll : DocCollCfg) (title root : PyVal),
        ClcRichtextBlocknodeTemplate_from_document doc_coll
            (PyVal.Document title none root)
          = ClcRichtextBlocknodeTemplate_from_ast_node doc_coll root)
    ∧ (∀ (doc_coll : DocCollCfg) (title root : PyVal) (i : BlockNodeInfo)
        (r : RT),
        ClcRichtextBlocknodeTemplate_from_ast_node doc_coll root
          = Except.ok r →
        ∃ tw t m body pa pw sa,
          r = RT.ClcRichtextBlocknodeTemplate tw t m body pa pw sa
          ∧ ClcRichtextBlocknodeTemplate_from_document doc_coll
              (PyVal.Document title (some i) root)
            = Except.ok (RT.ClcRichtextBlocknodeTemplate tw t
                (ClcMetadataTemplate_from_ast_node i.metadata
                  doc_coll.target_resolver)
                body pa pw sa)) := by
  constructor
  · intro doc_coll title root
    rw [ClcRichtextBlocknodeTemplate_from_document.eq_def]
    cases hres : ClcRichtextBlocknodeTemplate_from_ast_node doc_coll root <;>
      simp [hres, bind, Except.bind, pure, Except.pure]
  · intro doc_coll title root i r h
    obtain ⟨tw, t, m, body, pa, pw, sa, hr⟩ :=
      richtext_from_ast_node_ok_shape doc_coll root r h
    refine ⟨tw, t, m, body, pa, pw, sa, hr, ?_⟩
    rw [ClcRichtextBlocknodeTemplate_from_document.eq_def]
    simp [h, hr, bind, Except.bind, pure, Except.pure, RT.setMetadata]

/-- Witness for claim C8 at a concrete document. -/
theorem c8_document_metadata_replacement_witness :
    ∃ tw t m body pa pw sa,
      RT.ClcRichtextBlocknodeTemplate [] [] [] [] [] [] []
        = RT.ClcRichtextBlocknodeTemplate tw t m body pa pw sa
      ∧ ClcRichtextBlocknodeTemplate_from_document exampleCfg
          (PyVal.Document PyVal.PyNone
            (some (BlockNodeInfo.mk [("k", DataValue.StrDataType "v")] none
              none none none none none none))
            (PyVal.RichtextBlockNode PyVal.PyNone none 0 []))
        = Except.ok (RT.ClcRichtextBlocknodeTemplate tw t
            (ClcMetadataTemplate_from_ast_node
              [("k", DataValue.StrDataType "v")] exampleCfg.target_resolver)
            body pa pw sa) := by
  exact c8_document_metadata_replacement.2 exampleCfg PyVal.PyNone
    (PyVal.RichtextBlockNode PyVal.PyNone none 0 [])
    (BlockNodeInfo.mk [("k", DataValue.StrDataType "v")] none none none none
      none none none)
    (RT.ClcRichtextBlocknodeTemplate [] [] [] [] [] [] [])
    (by simp [ClcRichtextBlocknodeTemplate_from_ast_node,
      templatifyBlockContent, exampleCfg, apply_plugins, apply_plugins_list,
      pure, Except.pure, bind, Except.bind])

/-- Claim C3: adding under an identifier already present fails with the
duplicate-identifier error and leaves the collection unchanged, and more
generally every failing add leaves the collection exactly as it was: no
partial document is ever stored. -/
theorem c3_add_duplicate_and_all_or_nothing {T DN : Type} [DecidableEq T] :
    (∀ (coll : HtmlDocumentCollection T DN)
        (dn_templatify : DN → Except PyErr RT) (id_ : T)
        (docnote_src : Option DN) (clc_src : Option PyVal),
        id_ ∈ coll.keys →
        coll.add dn_templatify id_ docnote_src clc_src
          = (coll, some (PyErr.valueError "Duplicate document ID!")))
    ∧ (∀ (coll : HtmlDocumentCollection T DN)
        (dn_templatify : DN → Except PyErr RT) (id_ : T)
        (docnote_src : Option DN) (clc_src : Option PyVal),
        (coll.add dn_templatify id_ docnote_src clc_src).2.isSome = true →
        (coll.add dn_templatify id_ docnote_src clc_src).1 = coll) := by
  constructor
  · intro coll dn_templatify id_ docnote_src clc_src hmem
    simp [HtmlDocumentCollection.add, hmem]
  · intro coll dn_templatify id_ docnote_src clc_src hfail
    by_cases hmem : id_ ∈ coll.keys
    · simp [HtmlDocumentCollection.add, hmem]
    · cases docnote_src with
      | none =>
          cases clc_src with
          | none => simp [HtmlDocumentCollection.add, hmem]
          | some c =>
              cases hres : ClcRichtextBlocknodeTemplate_from_document coll.cfg c
              · simp [HtmlDocumentCollection.add, hmem, hres]
              · simp [HtmlDocumentCollection.add, hmem, hres] at hfail
      | some d =>
          cases clc_src with
          | none =>
              cases hres : dn_templatify d
              · simp [HtmlDocumentCollection.add, hmem, hres]
              · simp [HtmlDocumentCollection.add, hmem, hres] at hfail
          | some c => simp [HtmlDocumentCollection.add, hmem]

/-- Witness for claim C3: a second add under doc1 is rejected with the
duplicate error and the collection is unchanged. -/
theorem c3_add_duplicate_witness :
    exampleCollection.add exampleDnTemplatify "doc1" none
        (some (PyVal.AnnotationNode "y"))
      = (exampleCollection, some (PyErr.valueError "Duplicate document ID!"))
    ∧ (exampleCollection.add exampleDnTemplatify "doc1" none
        (some (PyVal.AnnotationNode "y"))).1 = exampleCollection := by
  have hmem : "doc1" ∈ exampleCollection.keys := by
    simp [exampleCollection, HtmlDocumentCollection.keys]
  have h1 := c3_add_duplicate_and_all_or_nothing.1 exampleCollection
    exampleDnTemplatify "doc1" none (some (PyVal.AnnotationNode "y")) hmem
  refine ⟨h1, ?_⟩
  exact c3_add_duplicate_and_all_or_nothing.2 exampleCollection
    exampleDnTemplatify "doc1" none (some (PyVal.AnnotationNode "y"))
    (by rw [h1]; rfl)
